import Mathlib

/-!
Shallow embedding of the FunPayCardinal event-handler and raise/delivery workflow core
(`src/handlers.py`, `src/FunPayAPI/account.py`, `src/FunPayAPI/orders.py`) together with
theorems settling the specification claims about it.

Python strings are modelled by `String`; `str.strip`, `str.lower`, `str.replace` and the
`in` substring test are re-implemented over `List Char` so that every definition reduces
inside the kernel.  Python dictionaries read through `.get` are modelled by `Option`-valued
fields (a key that is absent and a key mapped to `None` are both `none`, exactly what
`.get` lets the code observe).  HTTP collaborators are modelled by explicit parameters
carrying the responses the code would receive.
-/

namespace FunPayCardinal

/-- Python `str.strip` on a character list: drop whitespace from both ends. -/
def pyStripList (l : List Char) : List Char :=
  ((l.dropWhile Char.isWhitespace).reverse.dropWhile Char.isWhitespace).reverse

/-- Python `str.strip`. -/
def pyStrip (s : String) : String := ⟨pyStripList s.data⟩

/-- ASCII lower-casing of one character (the case arising in the configs modelled here). -/
def asciiLowerChar (c : Char) : Char :=
  if 65 ≤ c.toNat ∧ c.toNat ≤ 90 then Char.ofNat (c.toNat + 32) else c

/-- Python `str.lower`, restricted to ASCII letters. -/
def pyLower (s : String) : String := ⟨s.data.map asciiLowerChar⟩

/-- Whether `pat` occurs as a contiguous sublist of `hay`. -/
def listContainsSub (hay pat : List Char) : Bool :=
  match hay with
  | [] => pat.isEmpty
  | c :: rest => pat.isPrefixOf (c :: rest) || listContainsSub rest pat

/-- Python `pat in hay` on strings (substring containment). -/
def strContains (hay pat : String) : Bool := listContainsSub hay.data pat.data

/-- Replace every non-overlapping occurrence of `pat` in the list, left to right,
with enough fuel to consume the whole haystack. -/
def replaceFuel (rep pat : List Char) : Nat → List Char → List Char
  | 0, _ => []
  | _ + 1, [] => []
  | n + 1, c :: rest =>
    if pat ≠ [] ∧ pat.isPrefixOf (c :: rest) then
      rep ++ replaceFuel rep pat n ((c :: rest).drop pat.length)
    else
      c :: replaceFuel rep pat n rest

/-- Python `s.replace(pat, rep)` (for the non-empty patterns used by the code). -/
def pyReplace (s pat rep : String) : String :=
  ⟨replaceFuel rep.data pat.data s.data.length s.data⟩

/-- A Python value stored under a dictionary key, as far as the code observes it:
only its truthiness and (for messages) its text matter. -/
inductive PVal
  | pbool (b : Bool)
  | pint (n : Int)
  | pstr (s : String)
deriving DecidableEq

/-- Python truthiness of a `PVal`. -/
def PVal.truthy : PVal → Bool
  | .pbool b => b
  | .pint n => n != 0
  | .pstr s => s ≠ ""

/-- Truthiness of the result of `dict.get` (a missing key, like a `None` value, is falsy). -/
def pyTruthy : Option PVal → Bool
  | none => false
  | some v => v.truthy

/-- Truthiness of `dict.get` on a string-valued key. -/
def pyTruthyStr : Option String → Bool
  | none => false
  | some s => s ≠ ""

/-- The JSON dictionary FunPay answers a raise request with, as read through `.get`:
`error` is the raw error value, `msg` its message, and `modal` the checkbox list
`(category_id, category_name)` that `BeautifulSoup` extracts from the modal HTML
(`none` when the `modal` key is absent or its HTML falsy). -/
structure RespDict where
  error : Option PVal := none
  msg : Option String := none
  modal : Option (List (String × String)) := none
deriving DecidableEq

/-- Category types from `FunPayAPI/enums.py` (not under `src/`; the spec lists the
variants `LOT` and `CURRENCY`). -/
inductive CategoryTypes
  | LOT
  | CURRENCY
deriving DecidableEq

/-- `FunPayAPI/categories.py` is not under `src/`; the spec gives `Category` the fields
`id`, `game_id` (nullable), `title` and `type`. -/
structure Category where
  id : Int
  game_id : Option Int
  title : String
  type : CategoryTypes
deriving DecidableEq

/-- The `TypedDict` returned by `Account.raise_game_categories`
(`src/FunPayAPI/account.py`, `RaiseCategoriesResponse`). -/
structure RaiseCategoriesResponse where
  complete : Bool
  wait : Nat
  raised_category_names : List String
  response : RespDict
deriving DecidableEq

/-- Modelled from the spec: `get_wait_time_from_raise_response` lives in
`FunPayAPI/other.py`, which is not under `src/`.  The spec says the cooldown value is
extracted from the message text "by locating its numeric/time substring"; we model it as
reading the first digit run of the message as a number of seconds. -/
def get_wait_time_from_raise_response (msg : String) : Nat :=
  (firstDigitRun msg.data).foldl (fun acc c => acc * 10 + (c.toNat - 48)) 0
where
  /-- First maximal run of digit characters in the list. -/
  firstDigitRun : List Char → List Char
    | [] => []
    | c :: rest =>
      if c.isDigit then (c :: rest).takeWhile Char.isDigit else firstDigitRun rest

/-- The checkbox loop of `raise_game_categories` (account.py lines 269-277): walk the
modal checkboxes in order and keep the id and name of every category whose id is not in
the caller-supplied `exclude` list (everything when `exclude` is `None`). -/
def modal_selection (exclude : Option (List String)) :
    List (String × String) → List String × List String
  | [] => ([], [])
  | (cid, cname) :: rest =>
    let tail := modal_selection exclude rest
    if (exclude.isSome && !((exclude.getD []).contains cid)) || exclude.isNone then
      (cid :: tail.1, cname :: tail.2)
    else
      tail

/-- `Account.raise_game_categories` (account.py lines 244-294).  `check` is the response
to the first raise request (`request_lots_raise`); `submit` maps the list of category ids
carried by the second raise request (`node_ids[]`) to FunPay's response to it;
`parse_wait` is the cooldown parser collaborator.  The Python function has no `return`
after its `elif` chain, so a response matching no branch yields `None`: the result type is
`Option`. -/
def raise_game_categories (category : Category) (exclude : Option (List String))
    (parse_wait : String → Nat) (check : RespDict)
    (submit : List String → RespDict) : Option RaiseCategoriesResponse :=
  if pyTruthy check.error && pyTruthyStr check.msg &&
      strContains (check.msg.getD "") "Подождите" then
    some { complete := false, wait := parse_wait (check.msg.getD ""),
           raised_category_names := [], response := check }
  else if pyTruthy check.error then
    some { complete := false, wait := 10, raised_category_names := [], response := check }
  else if check.error.isSome && !(pyTruthy check.error) then
    some { complete := true, wait := 3600, raised_category_names := [category.title],
           response := check }
  else if check.modal.isSome then
    let sel := modal_selection exclude (check.modal.getD [])
    let second := submit sel.1
    if !(pyTruthy second.error) then
      some { complete := true, wait := 3600, raised_category_names := sel.2,
             response := second }
    else
      some { complete := false, wait := 10, raised_category_names := [], response := second }
  else
    none

/-- A concrete category used to instantiate witnesses. -/
def sampleCategory : Category :=
  { id := 109, game_id := some 41, title := "Аккаунты", type := CategoryTypes.LOT }

/-- Order statuses from `FunPayAPI/enums.py` (not under `src/`; `orders.py` and the spec
name the variants `OUTSTANDING`, `COMPLETED` and `REFUND`). -/
inductive OrderStatuses
  | OUTSTANDING
  | COMPLETED
  | REFUND
deriving DecidableEq

/-- The `Order` class of `src/FunPayAPI/orders.py`.  `price` is a Python float; no claim
depends on its arithmetic, so it is carried as an integer number of currency units. -/
structure Order where
  id : String
  title : String
  price : Int
  buyer_name : String
  buyer_id : Int
  status : OrderStatuses
deriving DecidableEq

/-- One entry of `cardinal.auto_delivery_config`: the `response` template and the optional
`productsFilePath` read through `.get` by `deliver_product`. -/
structure DeliveryObj where
  response : String
  productsFilePath : Option String := none
deriving DecidableEq

/-- The product files on disk: an association from file path to the ordered list of
product units stored in that file. -/
abbrev Files := List (String × List String)

/-- Overwrite (or append) the contents stored under `path`. -/
def setFile (path : String) (contents : List String) : Files → Files
  | [] => [(path, contents)]
  | (p, c) :: rest =>
    if p = path then (p, contents) :: rest else (p, c) :: setFile path contents rest

/-- Look up the contents stored under `path`. -/
def getFile (path : String) : Files → Option (List String)
  | [] => none
  | (p, c) :: rest => if p = path then some c else getFile path rest

/-- Modelled from the spec: `cardinal_tools.get_product_from_json` (`Utils/`, not under
`src/`) is the inventory source's `popOne`: it removes the first product unit from the
file and persists the rest, raising when the file is missing or empty (`none` here). -/
def get_product_from_json (path : String) (files : Files) :
    Option (String × Files) :=
  match getFile path files with
  | none => none
  | some [] => none
  | some (p :: rest) => some (p, setFile path rest files)

/-- Modelled from the spec: `cardinal_tools.add_product_to_json` (`Utils/`, not under
`src/`) is the inventory source's `pushBack`: it returns one unit to the file. -/
def add_product_to_json (path : String) (product : String) (files : Files) : Files :=
  match getFile path files with
  | none => setFile path [product] files
  | some c => setFile path (c ++ [product]) files

/-- Modelled from the spec: `cardinal_tools.format_order_text` (`Utils/`, not under
`src/`) renders the `response` template against the order; the spec declares the
template grammar out of scope ("message-template syntax" is a non-goal), so rendering is
modelled as returning the template unchanged.  The `$product` substitution that IS in
`src/handlers.py` is applied separately by `deliver_product`. -/
def format_order_text (template : String) (_order : Order) : String := template

/-- The retry loop of `send_product_text` (handlers.py lines 157-168), instrumented.
`send i` tells whether attempt number `i` of `account.send_message` succeeds (when it
raises, the handler logs and sleeps one second).  `fuel` is the remaining `attempts`
counter and `made` the number of attempts already made.  The result is
`(returned value, attempts made, one-second sleeps performed)`. -/
def send_product_text_go (send : Nat → Bool) : (fuel made : Nat) → Bool × Nat × Nat
  | 0, made => (false, made, made)
  | fuel + 1, made =>
    if send made then (true, made + 1, made) else send_product_text_go send fuel (made + 1)

/-- `send_product_text` (handlers.py lines 147-168): up to 3 attempts, a one-second sleep
after each attempt that raises, `False` once the attempts are exhausted. -/
def send_product_text (send : Nat → Bool) : Bool × Nat × Nat :=
  send_product_text_go send 3 0

/-- `deliver_product` (handlers.py lines 171-208).  `config` is
`cardinal.auto_delivery_config` in insertion order; `send` is the per-attempt outcome of
`account.send_message`; `files` are the product files.  `Except.error` models the
exceptions `deliver_product` lets escape to `delivery_product_handler` (a missing or
empty product file); `Except.ok none` is the "lot not in the config" case; otherwise the
Python function returns the tuple `(result, response_text, -1)`.  The chat lookup
`get_node_id_by_username` only feeds the abstracted send and is not tracked. -/
def deliver_product (config : List (String × DeliveryObj)) (order : Order)
    (send : Nat → Bool) (files : Files) :
    Except Unit (Option (Bool × String × Int)) × Files :=
  match config.find? (fun e => strContains order.title e.1) with
  | none => (Except.ok none, files)
  | some (_, dobj) =>
    let response_text := format_order_text dobj.response order
    match dobj.productsFilePath with
    | none =>
      let result := (send_product_text send).1
      (Except.ok (some (result, response_text, -1)), files)
    | some path =>
      match get_product_from_json path files with
      | none => (Except.error (), files)
      | some (product_text, files1) =>
        let response_text := pyReplace response_text "$product" product_text
        let result := (send_product_text send).1
        if result then
          (Except.ok (some (true, response_text, -1)), files1)
        else
          (Except.ok (some (false, response_text, -1)),
           add_product_to_json path product_text files1)

/-- The DELIVERY event `delivery_product_handler` dispatches onward (the `[order, text,
cardinal]` or `[order, reason, cardinal, True]` argument lists of handlers.py lines
227-237). -/
inductive DeliveryEvent
  | success (text : String)
  | failure (reason : String)
deriving DecidableEq

/-- `delivery_product_handler` (handlers.py lines 211-237): gated by the `autoDelivery`
flag; a `None` result from `deliver_product` is only logged (no DELIVERY event); a failed
result dispatches a failure event with the fixed reason text; a successful result
dispatches a success event with the sent text; an exception is caught and dispatched as a
failure event carrying `str(e)` (the empty string for the bare `Exception` raised by the
inventory collaborator). -/
def delivery_product_handler (autoDelivery : Bool) (config : List (String × DeliveryObj))
    (order : Order) (send : Nat → Bool) (files : Files) :
    Option DeliveryEvent × Files :=
  if !autoDelivery then (none, files)
  else
    match deliver_product config order send files with
    | (Except.error _, files1) => (some (DeliveryEvent.failure ""), files1)
    | (Except.ok none, files1) => (none, files1)
    | (Except.ok (some (result, text, _)), files1) =>
      if result then (some (DeliveryEvent.success text), files1)
      else (some (DeliveryEvent.failure "Превышено кол-во попыток."), files1)

/-- `send_response` (handlers.py lines 40-60): indexes `cardinal.auto_response_config`
with `msg.message_text.strip()` — WITHOUT lower-casing — raising `KeyError`
(`Except.error`) when that exact key is absent.  When the key is present, the message is
formatted and sent; that collaborator round trip is abstracted into `sendOutcome`
(`Except.error` when `send_message` raises, `Except.ok b` for the boolean the response
shape check yields). -/
def send_response (config : List (String × String)) (msgText : String)
    (sendOutcome : Except Unit Bool) : Except Unit Bool :=
  match config.lookup (pyStrip msgText) with
  | none => Except.error ()
  | some _ => sendOutcome

/-- Result of `send_response_handler`: gated off, not a command, or the loop outcome
`(attempts that raised, attempts made, whether a response was sent)`. -/
inductive SendResponseResult
  | disabled
  | notCommand
  | finished (raised : Nat) (attempts_made : Nat) (sent : Bool)
deriving DecidableEq

/-- The `while not done and attempts` loop of `send_response_handler` (handlers.py lines
78-95): an attempt that raises is logged and decrements `attempts`; a `False` result
decrements `attempts`; a `True` result sets `done`.  `fuel` is the remaining `attempts`,
`i` the next attempt index, `raised` the exceptions seen so far. -/
def send_response_loop (config : List (String × String)) (msgText : String)
    (sendOutcome : Nat → Except Unit Bool) : (fuel i raised : Nat) → Nat × Nat × Bool
  | 0, i, raised => (raised, i, false)
  | fuel + 1, i, raised =>
    match send_response config msgText (sendOutcome i) with
    | Except.error _ => send_response_loop config msgText sendOutcome fuel (i + 1) (raised + 1)
    | Except.ok true => (raised, i + 1, true)
    | Except.ok false => send_response_loop config msgText sendOutcome fuel (i + 1) raised

/-- `send_response_handler` (handlers.py lines 63-98): gated by the `AutoResponse` flag,
then by membership of `msg.message_text.strip().lower()` in the auto-response config;
when both gates pass, runs the 3-attempt send loop. -/
def send_response_handler (autoResponse : Bool) (config : List (String × String))
    (msgText : String) (sendOutcome : Nat → Except Unit Bool) : SendResponseResult :=
  if !autoResponse then SendResponseResult.disabled
  else if (config.lookup (pyLower (pyStrip msgText))).isNone then SendResponseResult.notCommand
  else
    let r := send_response_loop config msgText sendOutcome 3 0 0
    SendResponseResult.finished r.1 r.2.1 r.2.2

/-- Modelled from the spec: `Cardinal.run_handlers` lives in `cardinal.py`, which is not
under `src/` (only the registration lists `REGISTER_TO_*` are, in `src/handlers.py`).
Per the spec, a handler is an identified callback; running it either returns or raises. -/
structure Handler (E A : Type) where
  id : Nat
  run : A → Except E Unit

/-- The error, if any, a handler invocation raised (it is caught and logged). -/
def caught {E : Type} : Except E Unit → Option E
  | Except.ok _ => none
  | Except.error e => some e

/-- Modelled from the spec: `Cardinal.run_handlers` (`cardinal.py`, not under `src/`)
iterates over the registered handlers in order, calling each on the same argument list
inside a `try`/`except` that logs and swallows any exception.  The result is the
invocation log: which handler ran, in which order, and what (caught) error it raised. -/
def dispatch {E A : Type} : List (Handler E A) → A → List (Nat × Option E)
  | [], _ => []
  | h :: hs, a =>
    match h.run a with
    | Except.ok _ => (h.id, none) :: dispatch hs a
    | Except.error e => (h.id, some e) :: dispatch hs a

/-- Concrete auto-delivery config used by witnesses: one rule whose key is a substring of
the sample order's title, with an inventory file. -/
def goldConfig : List (String × DeliveryObj) :=
  [("Gold", { response := "Thanks, $product delivered!", productsFilePath := some "file.json" })]

/-- Concrete completed order used by witnesses. -/
def goldOrder : Order :=
  { id := "ABCDEFGH", title := "100 Gold", price := 5, buyer_name := "buyer1",
    buyer_id := 77, status := OrderStatuses.COMPLETED }

/-- Concrete product files used by witnesses. -/
def goldFiles : Files := [("file.json", ["unitA", "unitB"])]

/-- The invocation log of `dispatch` is exactly one entry per registered handler, in
registration order, each recording that handler applied to the dispatched arguments. -/
theorem dispatch_eq_map {E A : Type} (hs : List (Handler E A)) (a : A) :
    dispatch hs a = hs.map (fun h => (h.id, caught (h.run a))) := by
  induction hs with
  | nil => rfl
  | cons h t ih =>
    show dispatch (h :: t) a = _
    unfold dispatch
    cases hr : h.run a <;> simp [caught, hr, ih]

/-- Claim C1: for every event kind and every sequence of registered handlers, `dispatch`
invokes every registered handler exactly once per call, in registration order, passing
the same arguments to each; an exception raised by one handler is caught (recorded in the
log) and does not prevent subsequent handlers in the same dispatch from running. -/
theorem dispatch_invokes_every_handler_once_in_order {E A : Type}
    (hs : List (Handler E A)) (a : A) :
    dispatch hs a = hs.map (fun h => (h.id, caught (h.run a))) ∧
    (dispatch hs a).map Prod.fst = hs.map Handler.id := by
  refine ⟨dispatch_eq_map hs a, ?_⟩
  rw [dispatch_eq_map]
  simp

/-- Claim C2: a raise-request response with a truthy error value and a message containing
the cooldown marker yields `complete = false`, `wait` equal to the parsed cooldown, and
no raised categories; the modelled parser reads 45 seconds out of
"Подождите 45 секунд". -/
theorem raise_cooldown_outcome (category : Category) (exclude : Option (List String))
    (parse_wait : String → Nat) (check : RespDict) (submit : List String → RespDict)
    (herr : pyTruthy check.error = true) (hmsg : pyTruthyStr check.msg = true)
    (hcool : strContains (check.msg.getD "") "Подождите" = true) :
    raise_game_categories category exclude parse_wait check submit =
      some { complete := false, wait := parse_wait (check.msg.getD ""),
             raised_category_names := [], response := check } ∧
    get_wait_time_from_raise_response "Подождите 45 секунд" = 45 := by
  refine ⟨?_, by decide⟩
  simp [raise_game_categories, herr, hmsg, hcool]

/-- Witness for C2 at the spec's concrete scenario
`{"error": true, "msg": "Подождите 45 секунд"}`. -/
theorem raise_cooldown_outcome_witness :
    raise_game_categories sampleCategory none get_wait_time_from_raise_response
        { error := some (PVal.pbool true), msg := some "Подождите 45 секунд" }
        (fun _ => { error := none }) =
      some { complete := false, wait := 45, raised_category_names := [],
             response := { error := some (PVal.pbool true),
                           msg := some "Подождите 45 секунд" } } := by
  have h := raise_cooldown_outcome sampleCategory none get_wait_time_from_raise_response
      { error := some (PVal.pbool true), msg := some "Подождите 45 секунд" }
      (fun _ => { error := none }) (by decide) (by decide) (by decide)
  rw [h.1]
  decide

/-- Claim C6: a response whose `error` key is present but falsy (and carries no modal
payload) is the single-category auto-raise case: `complete = true`, `wait = 3600`,
`raised_category_names = [category.title]`. -/
theorem raise_single_category_auto (category : Category) (exclude : Option (List String))
    (parse_wait : String → Nat) (check : RespDict) (submit : List String → RespDict)
    (v : PVal) (herr : check.error = some v) (hfalsy : v.truthy = false)
    (_hmodal : check.modal = none) :
    raise_game_categories category exclude parse_wait check submit =
      some { complete := true, wait := 3600, raised_category_names := [category.title],
             response := check } := by
  simp [raise_game_categories, herr, pyTruthy, hfalsy]

/-- Witness for C6 at the response `{"error": false}`. -/
theorem raise_single_category_auto_witness :
    raise_game_categories sampleCategory none get_wait_time_from_raise_response
        { error := some (PVal.pbool false) } (fun _ => { error := none }) =
      some { complete := true, wait := 3600,
             raised_category_names := [sampleCategory.title],
             response := { error := some (PVal.pbool false) } } :=
  raise_single_category_auto sampleCategory none get_wait_time_from_raise_response
    { error := some (PVal.pbool false) } (fun _ => { error := none })
    (PVal.pbool false) rfl rfl rfl

/-- Claim C9: a raise-request response carrying neither an `error` key nor a `modal` key
matches no branch of the classification, and `raise_game_categories` returns `None`
instead of a `RaiseCategoriesResponse`. -/
theorem raise_no_branch_returns_none :
    raise_game_categories sampleCategory none get_wait_time_from_raise_response
      { error := none, msg := none, modal := none } (fun _ => { error := none }) = none := by
  decide

/-- The checkbox loop keeps exactly the checkboxes whose id is not excluded, in order:
its two result lists are the ids and the names of that filtered sublist. -/
theorem modal_selection_eq_filter (exclude : Option (List String))
    (M : List (String × String)) :
    modal_selection exclude M =
      (((M.filter fun e => !((exclude.getD []).contains e.1)).map Prod.fst),
       ((M.filter fun e => !((exclude.getD []).contains e.1)).map Prod.snd)) := by
  induction M with
  | nil => rfl
  | cons hd t ih =>
    obtain ⟨cid, cname⟩ := hd
    unfold modal_selection
    rw [ih]
    cases exclude with
    | none => simp [List.filter_cons]
    | some E =>
      by_cases hc : cid ∈ E <;> simp [List.filter_cons, hc]

/-- Claim C7: every outcome `raise_game_categories` returns has a non-empty
`raised_category_names` only when `complete = true`, and a positive `wait`; the cooldown
parser is the spec's collaborator returning a (positive) duration in seconds. -/
theorem raise_outcome_invariant (category : Category) (exclude : Option (List String))
    (parse_wait : String → Nat) (check : RespDict) (submit : List String → RespDict)
    (out : RaiseCategoriesResponse) (hpos : ∀ s, 0 < parse_wait s)
    (hout : raise_game_categories category exclude parse_wait check submit = some out) :
    (out.raised_category_names ≠ [] → out.complete = true) ∧ 0 < out.wait := by
  unfold raise_game_categories at hout
  split at hout
  · injection hout with h
    subst h
    exact ⟨fun hne => absurd rfl hne, hpos _⟩
  · split at hout
    · injection hout with h
      subst h
      exact ⟨fun hne => absurd rfl hne, by norm_num⟩
    · split at hout
      · injection hout with h
        subst h
        exact ⟨fun _ => rfl, by norm_num⟩
      · split at hout
        · simp only at hout
          split at hout
          · injection hout with h
            subst h
            exact ⟨fun _ => rfl, by norm_num⟩
          · injection hout with h
            subst h
            exact ⟨fun hne => absurd rfl hne, by norm_num⟩
        · exact absurd hout (by simp)

/-- The concrete outcome used to witness the invariant claim. -/
def autoRaiseOutcome : RaiseCategoriesResponse :=
  { complete := true, wait := 3600, raised_category_names := [sampleCategory.title],
    response := { error := some (PVal.pbool false) } }

/-- Witness for C7 at the single-category auto-raise response `{"error": false}`. -/
theorem raise_outcome_invariant_witness :
    (autoRaiseOutcome.raised_category_names ≠ [] → autoRaiseOutcome.complete = true) ∧
    0 < autoRaiseOutcome.wait :=
  raise_outcome_invariant sampleCategory none (fun _ => 45)
    { error := some (PVal.pbool false) } (fun _ => { error := none }) autoRaiseOutcome
    (by intro s; simp) (by decide)

/-- Claim C3: for every exclusion set `E` and modal checkbox list `M`, the ids carried by
the second raise request are exactly the modal ids not in `E` (as a set, `M.ids − E`,
and positionally the non-excluded sublist of `M` in order), and on a no-error submission
response the outcome's raised names are the names of exactly the submitted categories. -/
theorem raise_modal_excludes_exactly (category : Category) (E : List String)
    (parse_wait : String → Nat) (check : RespDict) (submit : List String → RespDict)
    (M : List (String × String)) (herr : check.error = none)
    (hmodal : check.modal = some M) :
    (modal_selection (some E) M).1 =
      ((M.filter fun e => !(E.contains e.1)).map Prod.fst) ∧
    (∀ cid, cid ∈ (modal_selection (some E) M).1 ↔
      (cid ∈ M.map Prod.fst ∧ cid ∉ E)) ∧
    (modal_selection (some E) M).2 =
      ((M.filter fun e => !(E.contains e.1)).map Prod.snd) ∧
    (pyTruthy (submit (modal_selection (some E) M).1).error = false →
      raise_game_categories category (some E) parse_wait check submit =
        some { complete := true, wait := 3600,
               raised_category_names := (modal_selection (some E) M).2,
               response := submit (modal_selection (some E) M).1 }) := by
  have hsel := modal_selection_eq_filter (some E) M
  refine ⟨?_, ?_, ?_, ?_⟩
  · simp only [hsel, Option.getD_some]
  · intro cid
    rw [hsel]
    simp only [List.mem_map, List.mem_filter, Option.getD_some]
    constructor
    · rintro ⟨e, ⟨heM, hf⟩, rfl⟩
      refine ⟨⟨e, heM, rfl⟩, ?_⟩
      simpa using hf
    · rintro ⟨⟨e, heM, rfl⟩, hnot⟩
      refine ⟨e, ⟨heM, ?_⟩, rfl⟩
      simpa using hnot
  · simp only [hsel, Option.getD_some]
  · intro hsub
    simp [raise_game_categories, herr, hmodal, hsub,
      show pyTruthy none = false from rfl]

/-- Witness for C3 with exclusion set `["2"]` and a three-checkbox modal. -/
theorem raise_modal_excludes_exactly_witness :
    raise_game_categories sampleCategory (some ["2"]) (fun _ => 10)
        { modal := some [("1", "Cat A"), ("2", "Cat B"), ("3", "Cat C")] }
        (fun _ => { error := none }) =
      some { complete := true, wait := 3600,
             raised_category_names := ["Cat A", "Cat C"],
             response := { error := none } } := by
  have h := raise_modal_excludes_exactly sampleCategory ["2"] (fun _ => 10)
      { modal := some [("1", "Cat A"), ("2", "Cat B"), ("3", "Cat C")] }
      (fun _ => { error := none }) [("1", "Cat A"), ("2", "Cat B"), ("3", "Cat C")]
      rfl rfl
  rw [h.2.2.2 (by decide)]
  decide

/-- Reading back a file just written returns the written contents. -/
theorem getFile_setFile_self (path : String) (c : List String) (files : Files) :
    getFile path (setFile path c files) = some c := by
  induction files with
  | nil => simp [setFile, getFile]
  | cons hd t ih =>
    obtain ⟨p, cc⟩ := hd
    by_cases hp : p = path <;> simp [setFile, getFile, hp, ih]

/-- The send loop makes at most `fuel` further attempts. -/
theorem send_product_text_go_le (send : Nat → Bool) (fuel : Nat) :
    ∀ made, (send_product_text_go send fuel made).2.1 ≤ made + fuel := by
  induction fuel with
  | zero => intro made; simp [send_product_text_go]
  | succ n ih =>
    intro made
    unfold send_product_text_go
    by_cases h : send made
    · simp [h]
    · simp [h]
      have := ih (made + 1)
      omega

/-- When the matched rule has an inventory file holding `u :: rest` and the send fails,
`deliver_product` reports failure and pushes the popped unit `u` back into the file. -/
theorem deliver_product_send_fail (config : List (String × DeliveryObj)) (order : Order)
    (send : Nat → Bool) (files : Files) (name : String) (dobj : DeliveryObj)
    (path u : String) (rest : List String)
    (hrule : config.find? (fun e => strContains order.title e.1) = some (name, dobj))
    (hpath : dobj.productsFilePath = some path)
    (hinv : getFile path files = some (u :: rest))
    (hsend : (send_product_text send).1 = false) :
    deliver_product config order send files =
      (Except.ok (some (false,
         pyReplace (format_order_text dobj.response order) "$product" u, -1)),
       setFile path (rest ++ [u]) (setFile path rest files)) := by
  simp only [deliver_product, hrule, hpath, get_product_from_json, hinv, hsend,
    add_product_to_json, getFile_setFile_self]
  simp

/-- Claim C4: for every completed order whose matched delivery rule has an inventory
source, if the send step fails the popped product unit is pushed back into the inventory
source, so the source's size is unchanged. -/
theorem deliver_failure_preserves_inventory_size (config : List (String × DeliveryObj))
    (order : Order) (send : Nat → Bool) (files : Files) (name : String)
    (dobj : DeliveryObj) (path u : String) (rest : List String)
    (hrule : config.find? (fun e => strContains order.title e.1) = some (name, dobj))
    (hpath : dobj.productsFilePath = some path)
    (hinv : getFile path files = some (u :: rest))
    (hsend : (send_product_text send).1 = false) :
    (getFile path (deliver_product config order send files).2).map List.length =
      (getFile path files).map List.length := by
  rw [deliver_product_send_fail config order send files name dobj path u rest
    hrule hpath hinv hsend]
  simp [getFile_setFile_self, hinv]

/-- Witness for C4: a failing send against the sample rule leaves two units stored. -/
theorem deliver_failure_preserves_inventory_size_witness :
    (getFile "file.json"
        (deliver_product goldConfig goldOrder (fun _ => false) goldFiles).2).map List.length =
      (getFile "file.json" goldFiles).map List.length :=
  deliver_failure_preserves_inventory_size goldConfig goldOrder (fun _ => false) goldFiles
    "Gold" { response := "Thanks, $product delivered!", productsFilePath := some "file.json" }
    "file.json" "unitA" ["unitB"] (by decide) rfl (by decide) (by decide)

/-- Claim C5: sending is retried up to exactly 3 attempts with a one-second sleep after
each failed attempt; when the first three attempts all fail, `send_product_text` returns
failure after exactly 3 attempts and 3 sleeps, and `delivery_product_handler` dispatches
the failure event with the popped inventory unit restored. -/
theorem send_retry_bound_and_failure_report (send : Nat → Bool)
    (config : List (String × DeliveryObj)) (order : Order) (files : Files)
    (name : String) (dobj : DeliveryObj) (path u : String) (rest : List String)
    (hfail : ∀ i, i < 3 → send i = false)
    (hrule : config.find? (fun e => strContains order.title e.1) = some (name, dobj))
    (hpath : dobj.productsFilePath = some path)
    (hinv : getFile path files = some (u :: rest)) :
    send_product_text send = (false, 3, 3) ∧
    (∀ s : Nat → Bool, (send_product_text s).2.1 ≤ 3) ∧
    (delivery_product_handler true config order send files).1 =
      some (DeliveryEvent.failure "Превышено кол-во попыток.") ∧
    getFile path (delivery_product_handler true config order send files).2 =
      some (rest ++ [u]) := by
  have h0 := hfail 0 (by norm_num)
  have h1 := hfail 1 (by norm_num)
  have h2 := hfail 2 (by norm_num)
  have hsend : send_product_text send = (false, 3, 3) := by
    simp [send_product_text, send_product_text_go, h0, h1, h2]
  have hdel := deliver_product_send_fail config order send files name dobj path u rest
    hrule hpath hinv (by rw [hsend])
  refine ⟨hsend, fun s => by simpa [send_product_text] using send_product_text_go_le s 3 0,
    ?_, ?_⟩
  · simp [delivery_product_handler, hdel]
  · simp [delivery_product_handler, hdel, getFile_setFile_self]

/-- Witness for C5: three consecutive send failures against the sample rule. -/
theorem send_retry_bound_and_failure_report_witness :
    send_product_text (fun _ => false) = (false, 3, 3) ∧
    (∀ s : Nat → Bool, (send_product_text s).2.1 ≤ 3) ∧
    (delivery_product_handler true goldConfig goldOrder (fun _ => false) goldFiles).1 =
      some (DeliveryEvent.failure "Превышено кол-во попыток.") ∧
    getFile "file.json"
        (delivery_product_handler true goldConfig goldOrder (fun _ => false) goldFiles).2 =
      some (["unitB"] ++ ["unitA"]) :=
  send_retry_bound_and_failure_report (fun _ => false) goldConfig goldOrder goldFiles
    "Gold" { response := "Thanks, $product delivered!", productsFilePath := some "file.json" }
    "file.json" "unitA" ["unitB"] (fun _ _ => rfl) (by decide) rfl (by decide)

/-- Claim C8 (code bug): even when the matched rule has an inventory source,
`deliver_product` returns `-1` as the remaining-count component of its result instead of
the remaining product count its own docstring promises ("оставшееся кол-во товара"):
delivering one of the two stored units leaves one unit in the file, yet the returned
count is `-1`, not `1`. -/
theorem deliver_product_inventory_count_is_minus_one :
    deliver_product goldConfig goldOrder (fun _ => true) goldFiles =
      (Except.ok (some (true, "Thanks, unitA delivered!", -1)),
       [("file.json", ["unitB"])]) ∧
    getFile "file.json" (deliver_product goldConfig goldOrder (fun _ => true) goldFiles).2 =
      some ["unitB"] ∧
    (-1 : Int) ≠ 1 :=
  ⟨rfl, rfl, by decide⟩

/-- Claim C10: when the stripped-and-lowercased message text is a key of the
auto-response config but the stripped text in its original case is not,
`send_response_handler` passes its gate, every one of its 3 attempts raises `KeyError`
inside `send_response`, and no response is ever sent. -/
theorem send_response_case_mismatch (config : List (String × String)) (msgText : String)
    (sendOutcome : Nat → Except Unit Bool)
    (hlower : (config.lookup (pyLower (pyStrip msgText))).isSome = true)
    (horig : config.lookup (pyStrip msgText) = none) :
    send_response_handler true config msgText sendOutcome =
      SendResponseResult.finished 3 3 false := by
  obtain ⟨v, hv⟩ := Option.isSome_iff_exists.mp hlower
  simp [send_response_handler, send_response_loop, send_response, horig, hv]

/-- Witness for C10: the config knows the command "hello" and the buyer sends "Hello". -/
theorem send_response_case_mismatch_witness :
    send_response_handler true [("hello", "hi there")] "Hello" (fun _ => Except.ok true) =
      SendResponseResult.finished 3 3 false :=
  send_response_case_mismatch [("hello", "hi there")] "Hello" (fun _ => Except.ok true)
    (by decide) (by decide)

end FunPayCardinal
